import Mathlib

/-!
ADXL375 SPI accelerometer driver (STM32 HAL)

A shallow embedding of `ADXL375.c` / `ADXL375.h`.

The driver talks to two external collaborators, the SPI transport
(`HAL_SPI_Transmit`, `HAL_SPI_Receive`) and the chip-select pin
(`HAL_GPIO_WritePin`).  Both are modelled by an explicit `World`:
every HAL call appends an `Event` to a trace, and the outcome of the
k-th SPI call is given by an arbitrary function `transport k`, so any
pattern of transport failures and any stream of received bytes is covered.

Bytes are natural numbers.  A byte that the C code computes or receives
(a command byte, a byte stored by `HAL_SPI_Receive`) is reduced modulo 256
where it is stored; a `uint8_t` argument of a driver function is a natural
number that the theorems take to be below 256.
-/

namespace ADXL375

/-! ## Constants of `ADXL375.h` -/

def ADXL_ANALOG_DEVICES_ID_REG : Nat := 0x00
def ADXL_BW_RATE : Nat := 0x2C
def ADXL_POWER_CTL : Nat := 0x2D
def ADXL_INT_ENABLE : Nat := 0x2E
def ADXL_INT_MAP : Nat := 0x2F
def ADXL_DATA_ADDRESS_INIT : Nat := 0x32
def ADXL_FIFO_STATUS : Nat := 0x39

def ADXL_DEVICE_ID : Nat := 0xE5

def ADXL_ODR_0_10 : Nat := 0x00

def ADXL_MEASUREMODE : Nat := 0x08

def ADXL_INT_DATA_READY : Nat := 0x80
def ADXL_INT1_DATA_READY : Nat := 0x00

def ADXL_Read_Command : Nat := 0x80
def ADXL_Read_Multiple_Command : Nat := 0xC0
def ADXL_Write_command : Nat := 0x00

/-- The enum `ADXL375_Error_TypeDef` of `ADXL375.h`. -/
inductive ADXL375_Error_TypeDef where
  | ADXL_NO_ERROR
  | ADXL_ERROR
  | ADXL_HAL_ERROR
  | ADXL_INV_REG_DATA_READ
  | ADXL_ID_VERIFY_ERROR
  deriving DecidableEq, Repr

/-- The struct `ADXL375_HW_InitTypeDef`: the SPI handle, the chip-select port
and pin (as identifiers) and the SPI timeout in milliseconds. -/
structure ADXL375_HW_InitTypeDef where
  SPIhandler : Nat
  CS_GPIOport : Nat
  CS_GPIOpin : Nat
  SPI_Timeout : Nat
  deriving DecidableEq, Repr

/-- The union `ADXL375_Data_TypeDef`, held as its 6-byte view `raw_data`.
The `axes` view is obtained from these bytes by `DX`, `DY`, `DZ` below. -/
structure ADXL375_Data_TypeDef where
  raw_data : List Nat
  deriving DecidableEq, Repr

/-! ## The HAL collaborators -/

/-- The status type returned by the STM32 HAL SPI calls. -/
inductive HAL_StatusTypeDef where
  | HAL_OK
  | HAL_ERROR
  | HAL_BUSY
  | HAL_TIMEOUT
  deriving DecidableEq, Repr

/-- The level written to a GPIO pin. -/
inductive GPIO_PinState where
  | GPIO_PIN_RESET
  | GPIO_PIN_SET
  deriving DecidableEq, Repr

/-- One observable HAL call. -/
inductive Event where
  | gpioWrite (port pin : Nat) (level : GPIO_PinState)
  | spiTransmit (hspi : Nat) (bytes : List Nat) (timeout : Nat)
  | spiReceive (hspi : Nat) (size : Nat) (timeout : Nat)
  deriving DecidableEq, Repr

/-- What the transport does on one SPI call: the status it returns, the bytes
it clocks in (used by a receive only) and, for a receive that fails, how many
bytes it had already stored in the destination when it gave up (0 leaves the
destination untouched). -/
structure Response where
  status : HAL_StatusTypeDef
  data : Nat → Nat
  stored : Nat

/-- The environment of the driver: the behaviour of the transport on the k-th
SPI call, the number of SPI calls made so far and the trace of HAL calls. -/
structure World where
  transport : Nat → Response
  calls : Nat
  trace : List Event

/-- `HAL_GPIO_WritePin(port, pin, level)`. -/
def HAL_GPIO_WritePin (port pin : Nat) (level : GPIO_PinState) (w : World) : World :=
  { w with trace := w.trace ++ [Event.gpioWrite port pin level] }

/-- `HAL_SPI_Transmit(hspi, pData, Size, Timeout)`: sends the first `Size`
bytes of `pData` and returns the status of the transport. -/
def HAL_SPI_Transmit (hspi : Nat) (pData : List Nat) (Size Timeout : Nat) (w : World) :
    HAL_StatusTypeDef × World :=
  ((w.transport w.calls).status,
   { w with calls := w.calls + 1,
            trace := w.trace ++ [Event.spiTransmit hspi (pData.take Size) Timeout] })

/-- The destination buffer `pData` after its first `n` bytes were overwritten
with the bytes `data 0, data 1, ...` (each stored into a `uint8_t`). -/
def storeBytes (pData : List Nat) (n : Nat) (data : Nat → Nat) : List Nat :=
  (List.range n).map (fun i => data i % 256) ++ pData.drop n

/-- `HAL_SPI_Receive(hspi, pData, Size, Timeout)`: on `HAL_OK` all `Size`
bytes are stored in `pData`; on a failure only the bytes stored so far are. -/
def HAL_SPI_Receive (hspi : Nat) (pData : List Nat) (Size Timeout : Nat) (w : World) :
    HAL_StatusTypeDef × List Nat × World :=
  let r := w.transport w.calls
  let n := if r.status = HAL_StatusTypeDef.HAL_OK then Size else min r.stored Size
  (r.status, storeBytes pData n r.data,
   { w with calls := w.calls + 1,
            trace := w.trace ++ [Event.spiReceive hspi Size Timeout] })

/-! ## The driver, `ADXL375.c` -/

open ADXL375_Error_TypeDef HAL_StatusTypeDef GPIO_PinState

/-- `enableCS_ADXL375`: drives the (active-low) chip-select pin low. -/
def enableCS_ADXL375 (CS_GPIOport CS_GPIOpin : Nat) (w : World) : World :=
  HAL_GPIO_WritePin CS_GPIOport CS_GPIOpin GPIO_PIN_RESET w

/-- `disableCS_ADXL375`: drives the chip-select pin high. -/
def disableCS_ADXL375 (CS_GPIOport CS_GPIOpin : Nat) (w : World) : World :=
  HAL_GPIO_WritePin CS_GPIOport CS_GPIOpin GPIO_PIN_SET w

/-- The command byte of `ADXL375_SingleRegister_Read`,
`SPITransmitData_ADXL = (ADXL_Read_Command | ADXL375_Register_Addr)`. -/
def readCommand (ADXL375_Register_Addr : Nat) : Nat :=
  (ADXL_Read_Command ||| ADXL375_Register_Addr) % 256

/-- The command byte of `ADXL375_SingleRegister_Write`,
`SPITransmitData_ADXL = (ADXL_Write_command | ADXL375_Register_Addr)`. -/
def writeCommand (ADXL375_Register_Addr : Nat) : Nat :=
  (ADXL_Write_command ||| ADXL375_Register_Addr) % 256

/-- The command byte of a sequential read starting at `addr`; `ADXL375_Data_Read`
builds it as `(ADXL_Read_Multiple_Command | ADXL_DATA_ADDRESS_INIT)`. -/
def readMultipleCommand (addr : Nat) : Nat :=
  (ADXL_Read_Multiple_Command ||| addr) % 256

/-- `ADXL375_SingleRegister_Read(ADXL375_Handler, ADXL375_Register_Addr, pData)`.
The argument `pData` is the byte `*pData` holds on entry; the result is the
returned error code, the byte `*pData` holds on return and the new world. -/
def ADXL375_SingleRegister_Read (h : ADXL375_HW_InitTypeDef) (ADXL375_Register_Addr : Nat)
    (pData : Nat) (w : World) : ADXL375_Error_TypeDef × Nat × World :=
  let SPITransmitData_ADXL := readCommand ADXL375_Register_Addr
  let w1 := enableCS_ADXL375 h.CS_GPIOport h.CS_GPIOpin w
  let t := HAL_SPI_Transmit h.SPIhandler [SPITransmitData_ADXL] 1 h.SPI_Timeout w1
  if t.1 ≠ HAL_OK then
    (ADXL_HAL_ERROR, pData, disableCS_ADXL375 h.CS_GPIOport h.CS_GPIOpin t.2)
  else
    let r := HAL_SPI_Receive h.SPIhandler [pData] 1 h.SPI_Timeout t.2
    if r.1 ≠ HAL_OK then
      (ADXL_HAL_ERROR, r.2.1.headD pData, disableCS_ADXL375 h.CS_GPIOport h.CS_GPIOpin r.2.2)
    else
      (ADXL_NO_ERROR, r.2.1.headD pData, disableCS_ADXL375 h.CS_GPIOport h.CS_GPIOpin r.2.2)

/-- `ADXL375_SingleRegister_Write(ADXL375_Handler, ADXL375_Register_Addr, ADXL375_Write_Data)`. -/
def ADXL375_SingleRegister_Write (h : ADXL375_HW_InitTypeDef) (ADXL375_Register_Addr : Nat)
    (ADXL375_Write_Data : Nat) (w : World) : ADXL375_Error_TypeDef × World :=
  let SPITransmitData_ADXL := writeCommand ADXL375_Register_Addr
  let w1 := enableCS_ADXL375 h.CS_GPIOport h.CS_GPIOpin w
  let t := HAL_SPI_Transmit h.SPIhandler [SPITransmitData_ADXL] 1 h.SPI_Timeout w1
  if t.1 ≠ HAL_OK then
    (ADXL_HAL_ERROR, disableCS_ADXL375 h.CS_GPIOport h.CS_GPIOpin t.2)
  else
    let t2 := HAL_SPI_Transmit h.SPIhandler [ADXL375_Write_Data % 256] 1 h.SPI_Timeout t.2
    if t2.1 ≠ HAL_OK then
      (ADXL_HAL_ERROR, disableCS_ADXL375 h.CS_GPIOport h.CS_GPIOpin t2.2)
    else
      (ADXL_NO_ERROR, disableCS_ADXL375 h.CS_GPIOport h.CS_GPIOpin t2.2)

/-- `ADXL375_Data_Read(ADXL375_Handler, ADXL375_Data)`: the result is the
returned error code, the contents of `*ADXL375_Data` on return and the new world. -/
def ADXL375_Data_Read (h : ADXL375_HW_InitTypeDef) (ADXL375_Data : ADXL375_Data_TypeDef)
    (w : World) : ADXL375_Error_TypeDef × ADXL375_Data_TypeDef × World :=
  let SPITransmitData_ADXL := readMultipleCommand ADXL_DATA_ADDRESS_INIT
  let w1 := enableCS_ADXL375 h.CS_GPIOport h.CS_GPIOpin w
  let t := HAL_SPI_Transmit h.SPIhandler [SPITransmitData_ADXL] 1 h.SPI_Timeout w1
  if t.1 ≠ HAL_OK then
    (ADXL_HAL_ERROR, ADXL375_Data, disableCS_ADXL375 h.CS_GPIOport h.CS_GPIOpin t.2)
  else
    let r := HAL_SPI_Receive h.SPIhandler ADXL375_Data.raw_data 6 h.SPI_Timeout t.2
    if r.1 ≠ HAL_OK then
      (ADXL_HAL_ERROR, ⟨r.2.1⟩, disableCS_ADXL375 h.CS_GPIOport h.CS_GPIOpin r.2.2)
    else
      (ADXL_NO_ERROR, ⟨r.2.1⟩, disableCS_ADXL375 h.CS_GPIOport h.CS_GPIOpin r.2.2)

/-- `ADXL375_ID_Verify(ADXL375_Handler)`. -/
def ADXL375_ID_Verify (h : ADXL375_HW_InitTypeDef) (w : World) :
    ADXL375_Error_TypeDef × World :=
  let ID_Receive := 0
  let rd := ADXL375_SingleRegister_Read h ADXL_ANALOG_DEVICES_ID_REG ID_Receive w
  let Verify_Status := rd.1
  let ID_Receive := rd.2.1
  if ID_Receive = ADXL_DEVICE_ID ∧ Verify_Status = ADXL_NO_ERROR then
    (ADXL_NO_ERROR, rd.2.2)
  else
    (ADXL_ID_VERIFY_ERROR, rd.2.2)

/-- `ADXL375_Set_Output_DataRate(ADXL375_Handler, ADXL375_Rate)`; the return
values of the register write and of the register read are discarded, as in
the source. -/
def ADXL375_Set_Output_DataRate (h : ADXL375_HW_InitTypeDef) (ADXL375_Rate : Nat)
    (w : World) : ADXL375_Error_TypeDef × World :=
  let ADXL_RateReg_Return := 0
  let wr := ADXL375_SingleRegister_Write h ADXL_BW_RATE ADXL375_Rate w
  let rd := ADXL375_SingleRegister_Read h ADXL_BW_RATE ADXL_RateReg_Return wr.2
  let ADXL_RateReg_Return := rd.2.1
  if ADXL_RateReg_Return ≠ ADXL375_Rate then
    (ADXL_INV_REG_DATA_READ, rd.2.2)
  else
    (ADXL_NO_ERROR, rd.2.2)

/-- `ADXL375_Set_Continuous_Measurement(ADXL375_Handler)`. -/
def ADXL375_Set_Continuous_Measurement (h : ADXL375_HW_InitTypeDef) (w : World) :
    ADXL375_Error_TypeDef × World :=
  let ADXL_MeasureReg_Return := 0
  let wr := ADXL375_SingleRegister_Write h ADXL_POWER_CTL ADXL_MEASUREMODE w
  let rd := ADXL375_SingleRegister_Read h ADXL_POWER_CTL ADXL_MeasureReg_Return wr.2
  let ADXL_MeasureReg_Return := rd.2.1
  if ADXL_MeasureReg_Return ≠ ADXL_MEASUREMODE then
    (ADXL_INV_REG_DATA_READ, rd.2.2)
  else
    (ADXL_NO_ERROR, rd.2.2)

/-- `ADXL375_Set_Interrupt_Measurement(ADXL375_Handler, ADXL375_Data)`: the
result is the returned error code, the contents of `*ADXL375_Data` on return
and the new world. -/
def ADXL375_Set_Interrupt_Measurement (h : ADXL375_HW_InitTypeDef)
    (ADXL375_Data : ADXL375_Data_TypeDef) (w : World) :
    ADXL375_Error_TypeDef × ADXL375_Data_TypeDef × World :=
  let ADXL_IntMapReg_Return := 0
  let ADXL_IntEnableReg_Return := 0
  let wr1 := ADXL375_SingleRegister_Write h ADXL_INT_MAP ADXL_INT1_DATA_READY w
  let rd1 := ADXL375_SingleRegister_Read h ADXL_INT_MAP ADXL_IntMapReg_Return wr1.2
  let ADXL_IntMapReg_Return := rd1.2.1
  let wr2 := ADXL375_SingleRegister_Write h ADXL_INT_ENABLE ADXL_INT_DATA_READY rd1.2.2
  let rd2 := ADXL375_SingleRegister_Read h ADXL_INT_ENABLE ADXL_IntEnableReg_Return wr2.2
  let ADXL_IntEnableReg_Return := rd2.2.1
  let dr := ADXL375_Data_Read h ADXL375_Data rd2.2.2
  if ADXL_IntMapReg_Return ≠ ADXL_INT1_DATA_READY ∨
      ADXL_IntEnableReg_Return ≠ ADXL_INT_DATA_READY then
    (ADXL_INV_REG_DATA_READ, dr.2.1, dr.2.2)
  else
    (ADXL_NO_ERROR, dr.2.1, dr.2.2)

/-! ## The `axes` view of the data union -/

/-- The value of an `int16_t` whose 16-bit pattern is `n` (two's complement). -/
def int16_t (n : Nat) : Int :=
  if n % 65536 < 32768 then ((n % 65536 : Nat) : Int) else ((n % 65536 : Nat) : Int) - 65536

/-- The `int16_t` stored at byte offset `k` of a buffer, as loaded by the
little-endian Cortex-M4 that `stm32f4xx_hal.h` targets: the byte at offset `k`
is the low byte, the byte at offset `k + 1` the high byte. -/
def load_int16 (mem : List Nat) (k : Nat) : Int :=
  int16_t (mem.getD k 0 + 256 * mem.getD (k + 1) 0)

/-- The member `axes.DX` of the union: the `int16_t` at byte offset 0. -/
def ADXL375_Data_TypeDef.DX (d : ADXL375_Data_TypeDef) : Int := load_int16 d.raw_data 0

/-- The member `axes.DY` of the union: the `int16_t` at byte offset 2. -/
def ADXL375_Data_TypeDef.DY (d : ADXL375_Data_TypeDef) : Int := load_int16 d.raw_data 2

/-- The member `axes.DZ` of the union: the `int16_t` at byte offset 4. -/
def ADXL375_Data_TypeDef.DZ (d : ADXL375_Data_TypeDef) : Int := load_int16 d.raw_data 4

/-! ## Observations on a trace -/

/-- The levels written, in order, to the chip-select pin of the handler `h`. -/
def selectWrites (h : ADXL375_HW_InitTypeDef) (trace : List Event) : List GPIO_PinState :=
  trace.filterMap fun e =>
    match e with
    | Event.gpioWrite port pin level =>
        if port = h.CS_GPIOport ∧ pin = h.CS_GPIOpin then some level else none
    | _ => none

/-- How often the select line of `h` was asserted (driven low). -/
def selectAsserts (h : ADXL375_HW_InitTypeDef) (trace : List Event) : Nat :=
  (selectWrites h trace).count GPIO_PIN_RESET

/-- How often the select line of `h` was deasserted (driven high). -/
def selectDeasserts (h : ADXL375_HW_InitTypeDef) (trace : List Event) : Nat :=
  (selectWrites h trace).count GPIO_PIN_SET

/-- The level the select line of `h` was last driven to, if it was driven at all. -/
def selectLevel (h : ADXL375_HW_InitTypeDef) (trace : List Event) : Option GPIO_PinState :=
  (selectWrites h trace).getLast?

/-- The byte strings sent right after an assertion of the select line of `h`,
in order; `armed` tells whether the event just before was such an assertion. -/
def commandsFrom (h : ADXL375_HW_InitTypeDef) : Bool → List Event → List (List Nat)
  | _, [] => []
  | _, Event.gpioWrite port pin level :: rest =>
      commandsFrom h
        (decide (port = h.CS_GPIOport ∧ pin = h.CS_GPIOpin ∧ level = GPIO_PIN_RESET)) rest
  | armed, Event.spiTransmit _ bytes _ :: rest =>
      if armed then bytes :: commandsFrom h false rest else commandsFrom h false rest
  | _, Event.spiReceive _ _ _ :: rest => commandsFrom h false rest

/-- The first byte string of every bus transaction on the select line of `h`:
what was sent right after each assertion of the line, in order. -/
def commands (h : ADXL375_HW_InitTypeDef) (trace : List Event) : List (List Nat) :=
  commandsFrom h false trace

/-- The driver operations, with their arguments. -/
inductive Operation where
  | SingleRegister_Read (ADXL375_Register_Addr pData : Nat)
  | SingleRegister_Write (ADXL375_Register_Addr ADXL375_Write_Data : Nat)
  | Data_Read (ADXL375_Data : ADXL375_Data_TypeDef)
  | ID_Verify
  | Set_Output_DataRate (ADXL375_Rate : Nat)
  | Set_Continuous_Measurement
  | Set_Interrupt_Measurement (ADXL375_Data : ADXL375_Data_TypeDef)
  deriving Repr

/-- The world after the operation `op` was called on the handler `h`. -/
def Operation.run (h : ADXL375_HW_InitTypeDef) : Operation → World → World
  | Operation.SingleRegister_Read a p, w => (ADXL375_SingleRegister_Read h a p w).2.2
  | Operation.SingleRegister_Write a v, w => (ADXL375_SingleRegister_Write h a v w).2
  | Operation.Data_Read d, w => (ADXL375_Data_Read h d w).2.2
  | Operation.ID_Verify, w => (ADXL375_ID_Verify h w).2
  | Operation.Set_Output_DataRate r, w => (ADXL375_Set_Output_DataRate h r w).2
  | Operation.Set_Continuous_Measurement, w => (ADXL375_Set_Continuous_Measurement h w).2
  | Operation.Set_Interrupt_Measurement d, w => (ADXL375_Set_Interrupt_Measurement h d w).2.2

/-- The world after a sequence of operations on the handler `h`. -/
def runAll (h : ADXL375_HW_InitTypeDef) (ops : List Operation) (w : World) : World :=
  ops.foldl (fun w op => op.run h w) w

/-- The number of bus transactions (register reads, register writes, burst
reads) an operation is made of, read off its body in `ADXL375.c`. -/
def Operation.transactions : Operation → Nat
  | Operation.SingleRegister_Read _ _ => 1
  | Operation.SingleRegister_Write _ _ => 1
  | Operation.Data_Read _ => 1
  | Operation.ID_Verify => 1
  | Operation.Set_Output_DataRate _ => 2
  | Operation.Set_Continuous_Measurement => 2
  | Operation.Set_Interrupt_Measurement _ => 5

/-- The levels written to the select line by `n` transactions in a row:
low, high, `n` times. -/
def selectPattern : Nat → List GPIO_PinState
  | 0 => []
  | n + 1 => selectPattern n ++ [GPIO_PIN_RESET, GPIO_PIN_SET]

/-! ## Sample handlers and transports -/

/-- A handler: SPI handle 1, chip-select on port 0 pin 4, timeout `ADXL_Timeout` = 10 ms. -/
def sampleHandler : ADXL375_HW_InitTypeDef := ⟨1, 0, 4, 10⟩

/-- A fresh world over the given transport. -/
def World.init (transport : Nat → Response) : World := ⟨transport, 0, []⟩

/-- A transport on which every call succeeds and every receive clocks in the
bytes of `bytes` (and zeros after them). -/
def okTransport (bytes : List Nat) : Nat → Response :=
  fun _ => ⟨HAL_OK, fun i => bytes.getD i 0, 0⟩

/-- A transport on which every call times out and a receive stores nothing. -/
def deadTransport : Nat → Response :=
  fun _ => ⟨HAL_TIMEOUT, fun _ => 0, 0⟩

/-- A transport whose k-th call succeeds when `k` is not in `failing`, and
otherwise fails with `HAL_ERROR` storing nothing; the k-th call clocks in
the bytes of the k-th entry of `replies`. -/
def scriptedTransport (failing : List Nat) (replies : List (List Nat)) : Nat → Response :=
  fun k => ⟨if k ∈ failing then HAL_ERROR else HAL_OK, fun i => (replies.getD k []).getD i 0, 0⟩

/-! ## The three bus transactions, equationally -/

/-- The register read, by cases on the status of its send and of its receive. -/
theorem singleRegister_Read_eq (h : ADXL375_HW_InitTypeDef) (a p : Nat) (w : World) :
    ADXL375_SingleRegister_Read h a p w =
      if (w.transport w.calls).status = HAL_OK then
        if (w.transport (w.calls + 1)).status = HAL_OK then
          (ADXL_NO_ERROR, (w.transport (w.calls + 1)).data 0 % 256,
            ⟨w.transport, w.calls + 2, w.trace ++
              [Event.gpioWrite h.CS_GPIOport h.CS_GPIOpin GPIO_PIN_RESET,
               Event.spiTransmit h.SPIhandler [readCommand a] h.SPI_Timeout,
               Event.spiReceive h.SPIhandler 1 h.SPI_Timeout,
               Event.gpioWrite h.CS_GPIOport h.CS_GPIOpin GPIO_PIN_SET]⟩)
        else
          (ADXL_HAL_ERROR,
            if (w.transport (w.calls + 1)).stored = 0 then p
            else (w.transport (w.calls + 1)).data 0 % 256,
            ⟨w.transport, w.calls + 2, w.trace ++
              [Event.gpioWrite h.CS_GPIOport h.CS_GPIOpin GPIO_PIN_RESET,
               Event.spiTransmit h.SPIhandler [readCommand a] h.SPI_Timeout,
               Event.spiReceive h.SPIhandler 1 h.SPI_Timeout,
               Event.gpioWrite h.CS_GPIOport h.CS_GPIOpin GPIO_PIN_SET]⟩)
      else
        (ADXL_HAL_ERROR, p,
          ⟨w.transport, w.calls + 1, w.trace ++
            [Event.gpioWrite h.CS_GPIOport h.CS_GPIOpin GPIO_PIN_RESET,
             Event.spiTransmit h.SPIhandler [readCommand a] h.SPI_Timeout,
             Event.gpioWrite h.CS_GPIOport h.CS_GPIOpin GPIO_PIN_SET]⟩) := by
  have r1 : List.range 1 = [0] := rfl
  by_cases h0 : (w.transport w.calls).status = HAL_OK
  · by_cases h1 : (w.transport (w.calls + 1)).status = HAL_OK
    · simp [ADXL375_SingleRegister_Read, HAL_SPI_Transmit, HAL_SPI_Receive, enableCS_ADXL375,
        disableCS_ADXL375, HAL_GPIO_WritePin, storeBytes, h0, h1, r1]
    · by_cases h2 : (w.transport (w.calls + 1)).stored = 0
      · simp [ADXL375_SingleRegister_Read, HAL_SPI_Transmit, HAL_SPI_Receive, enableCS_ADXL375,
          disableCS_ADXL375, HAL_GPIO_WritePin, storeBytes, h0, h1, h2]
      · have h3 : min (w.transport (w.calls + 1)).stored 1 = 1 := by omega
        simp [ADXL375_SingleRegister_Read, HAL_SPI_Transmit, HAL_SPI_Receive, enableCS_ADXL375,
          disableCS_ADXL375, HAL_GPIO_WritePin, storeBytes, h0, h1, h2, h3, r1]
  · simp [ADXL375_SingleRegister_Read, HAL_SPI_Transmit, enableCS_ADXL375,
      disableCS_ADXL375, HAL_GPIO_WritePin, h0]

/-- The register write, by cases on the status of its two sends. -/
theorem singleRegister_Write_eq (h : ADXL375_HW_InitTypeDef) (a v : Nat) (w : World) :
    ADXL375_SingleRegister_Write h a v w =
      if (w.transport w.calls).status = HAL_OK then
        (if (w.transport (w.calls + 1)).status = HAL_OK then ADXL_NO_ERROR else ADXL_HAL_ERROR,
          ⟨w.transport, w.calls + 2, w.trace ++
            [Event.gpioWrite h.CS_GPIOport h.CS_GPIOpin GPIO_PIN_RESET,
             Event.spiTransmit h.SPIhandler [writeCommand a] h.SPI_Timeout,
             Event.spiTransmit h.SPIhandler [v % 256] h.SPI_Timeout,
             Event.gpioWrite h.CS_GPIOport h.CS_GPIOpin GPIO_PIN_SET]⟩)
      else
        (ADXL_HAL_ERROR,
          ⟨w.transport, w.calls + 1, w.trace ++
            [Event.gpioWrite h.CS_GPIOport h.CS_GPIOpin GPIO_PIN_RESET,
             Event.spiTransmit h.SPIhandler [writeCommand a] h.SPI_Timeout,
             Event.gpioWrite h.CS_GPIOport h.CS_GPIOpin GPIO_PIN_SET]⟩) := by
  by_cases h0 : (w.transport w.calls).status = HAL_OK
  · by_cases h1 : (w.transport (w.calls + 1)).status = HAL_OK
    · simp [ADXL375_SingleRegister_Write, HAL_SPI_Transmit, enableCS_ADXL375,
        disableCS_ADXL375, HAL_GPIO_WritePin, h0, h1]
    · simp [ADXL375_SingleRegister_Write, HAL_SPI_Transmit, enableCS_ADXL375,
        disableCS_ADXL375, HAL_GPIO_WritePin, h0, h1]
  · simp [ADXL375_SingleRegister_Write, HAL_SPI_Transmit, enableCS_ADXL375,
      disableCS_ADXL375, HAL_GPIO_WritePin, h0]

/-- The burst read of the sample block, by cases on the status of its send
and of its receive. -/
theorem data_Read_eq (h : ADXL375_HW_InitTypeDef) (d : ADXL375_Data_TypeDef) (w : World) :
    ADXL375_Data_Read h d w =
      if (w.transport w.calls).status = HAL_OK then
        (if (w.transport (w.calls + 1)).status = HAL_OK then ADXL_NO_ERROR else ADXL_HAL_ERROR,
          ⟨storeBytes d.raw_data
            (if (w.transport (w.calls + 1)).status = HAL_OK then 6
              else min (w.transport (w.calls + 1)).stored 6)
            (w.transport (w.calls + 1)).data⟩,
          ⟨w.transport, w.calls + 2, w.trace ++
            [Event.gpioWrite h.CS_GPIOport h.CS_GPIOpin GPIO_PIN_RESET,
             Event.spiTransmit h.SPIhandler [readMultipleCommand ADXL_DATA_ADDRESS_INIT]
               h.SPI_Timeout,
             Event.spiReceive h.SPIhandler 6 h.SPI_Timeout,
             Event.gpioWrite h.CS_GPIOport h.CS_GPIOpin GPIO_PIN_SET]⟩)
      else
        (ADXL_HAL_ERROR, d,
          ⟨w.transport, w.calls + 1, w.trace ++
            [Event.gpioWrite h.CS_GPIOport h.CS_GPIOpin GPIO_PIN_RESET,
             Event.spiTransmit h.SPIhandler [readMultipleCommand ADXL_DATA_ADDRESS_INIT]
               h.SPI_Timeout,
             Event.gpioWrite h.CS_GPIOport h.CS_GPIOpin GPIO_PIN_SET]⟩) := by
  by_cases h0 : (w.transport w.calls).status = HAL_OK
  · by_cases h1 : (w.transport (w.calls + 1)).status = HAL_OK
    · simp [ADXL375_Data_Read, HAL_SPI_Transmit, HAL_SPI_Receive, enableCS_ADXL375,
        disableCS_ADXL375, HAL_GPIO_WritePin, h0, h1]
    · simp [ADXL375_Data_Read, HAL_SPI_Transmit, HAL_SPI_Receive, enableCS_ADXL375,
        disableCS_ADXL375, HAL_GPIO_WritePin, h0, h1]
  · simp [ADXL375_Data_Read, HAL_SPI_Transmit, enableCS_ADXL375,
      disableCS_ADXL375, HAL_GPIO_WritePin, h0]

/-! ## The select line and the command bytes along a trace -/

theorem selectWrites_append (h : ADXL375_HW_InitTypeDef) (t u : List Event) :
    selectWrites h (t ++ u) = selectWrites h t ++ selectWrites h u := by
  simp [selectWrites, List.filterMap_append]

/-- Appending a transaction that starts with an assertion of the select line
followed by a send adds the bytes sent to the commands. -/
theorem commandsFrom_append (h : ADXL375_HW_InitTypeDef) (hspi : Nat) (bytes : List Nat)
    (timeout : Nat) (u : List Event) (t : List Event) (armed : Bool) :
    commandsFrom h armed (t ++ Event.gpioWrite h.CS_GPIOport h.CS_GPIOpin GPIO_PIN_RESET ::
        Event.spiTransmit hspi bytes timeout :: u) =
      commandsFrom h armed t ++ bytes :: commandsFrom h false u := by
  induction t generalizing armed with
  | nil => simp [commandsFrom]
  | cons e t ih =>
    cases e with
    | gpioWrite port pin level => simp [commandsFrom, ih]
    | spiTransmit s b o =>
      cases armed <;> simp [commandsFrom, ih]
    | spiReceive s n o => simp [commandsFrom, ih]

/-- Each register read asserts and deasserts the select line once. -/
theorem selectWrites_Read (h : ADXL375_HW_InitTypeDef) (a p : Nat) (w : World) :
    selectWrites h (ADXL375_SingleRegister_Read h a p w).2.2.trace =
      selectWrites h w.trace ++ [GPIO_PIN_RESET, GPIO_PIN_SET] := by
  rw [singleRegister_Read_eq]
  split_ifs <;> simp [selectWrites_append] <;> simp [selectWrites]

/-- Each register write asserts and deasserts the select line once. -/
theorem selectWrites_Write (h : ADXL375_HW_InitTypeDef) (a v : Nat) (w : World) :
    selectWrites h (ADXL375_SingleRegister_Write h a v w).2.trace =
      selectWrites h w.trace ++ [GPIO_PIN_RESET, GPIO_PIN_SET] := by
  rw [singleRegister_Write_eq]
  split_ifs <;> simp [selectWrites_append] <;> simp [selectWrites]

/-- Each burst read asserts and deasserts the select line once. -/
theorem selectWrites_Data_Read (h : ADXL375_HW_InitTypeDef) (d : ADXL375_Data_TypeDef)
    (w : World) :
    selectWrites h (ADXL375_Data_Read h d w).2.2.trace =
      selectWrites h w.trace ++ [GPIO_PIN_RESET, GPIO_PIN_SET] := by
  rw [data_Read_eq]
  split_ifs <;> simp [selectWrites_append] <;> simp [selectWrites]

/-- A register read adds its command byte to the commands of the trace. -/
theorem commands_Read (h : ADXL375_HW_InitTypeDef) (a p : Nat) (w : World) :
    commands h (ADXL375_SingleRegister_Read h a p w).2.2.trace =
      commands h w.trace ++ [[readCommand a]] := by
  rw [singleRegister_Read_eq]
  split_ifs <;> simp [commands, commandsFrom_append] <;> simp [commandsFrom]

/-- A register write adds its command byte to the commands of the trace. -/
theorem commands_Write (h : ADXL375_HW_InitTypeDef) (a v : Nat) (w : World) :
    commands h (ADXL375_SingleRegister_Write h a v w).2.trace =
      commands h w.trace ++ [[writeCommand a]] := by
  rw [singleRegister_Write_eq]
  split_ifs <;> simp [commands, commandsFrom_append] <;> simp [commandsFrom]

/-- A burst read adds its command byte to the commands of the trace. -/
theorem commands_Data_Read (h : ADXL375_HW_InitTypeDef) (d : ADXL375_Data_TypeDef)
    (w : World) :
    commands h (ADXL375_Data_Read h d w).2.2.trace =
      commands h w.trace ++ [[readMultipleCommand ADXL_DATA_ADDRESS_INIT]] := by
  rw [data_Read_eq]
  split_ifs <;> simp [commands, commandsFrom_append] <;> simp [commandsFrom]

theorem selectPattern_add (m n : Nat) :
    selectPattern (m + n) = selectPattern m ++ selectPattern n := by
  induction n with
  | zero => simp [selectPattern]
  | succ n ih => rw [← Nat.add_assoc, selectPattern, selectPattern, ih, List.append_assoc]

theorem count_RESET_selectPattern (n : Nat) : (selectPattern n).count GPIO_PIN_RESET = n := by
  induction n with
  | zero => simp [selectPattern]
  | succ n ih => simp [selectPattern, ih]

theorem count_SET_selectPattern (n : Nat) : (selectPattern n).count GPIO_PIN_SET = n := by
  induction n with
  | zero => simp [selectPattern]
  | succ n ih => simp [selectPattern, ih]

/-- Every operation writes the select line low, high, once per transaction. -/
theorem selectWrites_run (h : ADXL375_HW_InitTypeDef) (op : Operation) (w : World) :
    selectWrites h (op.run h w).trace =
      selectWrites h w.trace ++ selectPattern op.transactions := by
  cases op with
  | SingleRegister_Read a p =>
    simp [Operation.run, Operation.transactions, selectPattern, selectWrites_Read]
  | SingleRegister_Write a v =>
    simp [Operation.run, Operation.transactions, selectPattern, selectWrites_Write]
  | Data_Read d =>
    simp [Operation.run, Operation.transactions, selectPattern, selectWrites_Data_Read]
  | ID_Verify =>
    simp only [Operation.run, Operation.transactions, ADXL375_ID_Verify]
    split_ifs <;> simp [selectPattern, selectWrites_Read]
  | Set_Output_DataRate r =>
    simp only [Operation.run, Operation.transactions, ADXL375_Set_Output_DataRate]
    split_ifs <;> simp [selectPattern, selectWrites_Read, selectWrites_Write]
  | Set_Continuous_Measurement =>
    simp only [Operation.run, Operation.transactions, ADXL375_Set_Continuous_Measurement]
    split_ifs <;> simp [selectPattern, selectWrites_Read, selectWrites_Write]
  | Set_Interrupt_Measurement d =>
    simp only [Operation.run, Operation.transactions, ADXL375_Set_Interrupt_Measurement]
    split_ifs <;>
      simp [selectPattern, selectWrites_Read, selectWrites_Write, selectWrites_Data_Read]

/-- A sequence of operations writes the select line low, high, once per
transaction of each operation. -/
theorem selectWrites_runAll (h : ADXL375_HW_InitTypeDef) (ops : List Operation) (w : World) :
    selectWrites h (runAll h ops w).trace =
      selectWrites h w.trace ++ selectPattern (ops.map Operation.transactions).sum := by
  induction ops generalizing w with
  | nil => simp [runAll, selectPattern]
  | cons op ops ih =>
    have step : runAll h (op :: ops) w = runAll h ops (op.run h w) := rfl
    rw [step, ih, selectWrites_run, List.map_cons, List.sum_cons, selectPattern_add,
      List.append_assoc]

/-! ## Chip-select bracketing -/

/-- C1, as stated, fails: `ADXL375_Set_Output_DataRate` is a register write
followed by a register read, so one call asserts the select line twice and
deasserts it twice, not once. -/
theorem select_once_per_operation_counterexample :
    selectAsserts sampleHandler
        ((Operation.Set_Output_DataRate 0x0A).run sampleHandler
          (World.init (okTransport [0x0A]))).trace = 2 ∧
      selectDeasserts sampleHandler
        ((Operation.Set_Output_DataRate 0x0A).run sampleHandler
          (World.init (okTransport [0x0A]))).trace = 2 ∧
      selectAsserts sampleHandler
        ((Operation.Set_Output_DataRate 0x0A).run sampleHandler
          (World.init (okTransport [0x0A]))).trace ≠
        selectAsserts sampleHandler (World.init (okTransport [0x0A])).trace + 1 := by
  decide

/-- C1, amended: for every sequence of driver operations and every transport
behaviour, the select line is asserted exactly once and deasserted exactly
once per bus transaction, where `ADXL375_SingleRegister_Read`,
`ADXL375_SingleRegister_Write`, `ADXL375_Data_Read` and `ADXL375_ID_Verify` are
one transaction, `ADXL375_Set_Output_DataRate` and
`ADXL375_Set_Continuous_Measurement` two and `ADXL375_Set_Interrupt_Measurement`
five; asserts and deasserts alternate, their numbers grow by the same amount,
and after at least one transaction the line ends deasserted. -/
theorem select_line_balanced (h : ADXL375_HW_InitTypeDef) (ops : List Operation) (w : World) :
    selectAsserts h (runAll h ops w).trace =
        selectAsserts h w.trace + (ops.map Operation.transactions).sum ∧
      selectDeasserts h (runAll h ops w).trace =
        selectDeasserts h w.trace + (ops.map Operation.transactions).sum ∧
      selectWrites h (runAll h ops w).trace =
        selectWrites h w.trace ++ selectPattern (ops.map Operation.transactions).sum ∧
      selectLevel h (runAll h ops w).trace =
        if (ops.map Operation.transactions).sum = 0 then selectLevel h w.trace
        else some GPIO_PIN_SET := by
  refine ⟨?_, ?_, selectWrites_runAll h ops w, ?_⟩
  · simp [selectAsserts, selectWrites_runAll, count_RESET_selectPattern]
  · simp [selectDeasserts, selectWrites_runAll, count_SET_selectPattern]
  · unfold selectLevel
    rw [selectWrites_runAll]
    cases hn : (ops.map Operation.transactions).sum with
    | zero => simp [selectPattern]
    | succ n => simp [selectPattern, ← List.append_assoc]

/-! ## Verify-after-write configuration -/

/-- C2: when every send and receive succeeds, `ADXL375_Set_Output_DataRate`
writes the rate to register 0x2C, reads register 0x2C back and returns
`ADXL_INV_REG_DATA_READ` when the byte read back differs from the rate and
`ADXL_NO_ERROR` when it is equal; `ADXL375_Set_Continuous_Measurement` does
the same with the value 0x08 on register 0x2D. -/
theorem verified_write_on_healthy_bus (h : ADXL375_HW_InitTypeDef) (rate : Nat) (w : World)
    (hrate : rate < 256) (hok : ∀ k, (w.transport k).status = HAL_OK) :
    (ADXL375_Set_Output_DataRate h rate w).2.trace = w.trace ++
        [Event.gpioWrite h.CS_GPIOport h.CS_GPIOpin GPIO_PIN_RESET,
         Event.spiTransmit h.SPIhandler [0x2C] h.SPI_Timeout,
         Event.spiTransmit h.SPIhandler [rate] h.SPI_Timeout,
         Event.gpioWrite h.CS_GPIOport h.CS_GPIOpin GPIO_PIN_SET,
         Event.gpioWrite h.CS_GPIOport h.CS_GPIOpin GPIO_PIN_RESET,
         Event.spiTransmit h.SPIhandler [0x80 ||| 0x2C] h.SPI_Timeout,
         Event.spiReceive h.SPIhandler 1 h.SPI_Timeout,
         Event.gpioWrite h.CS_GPIOport h.CS_GPIOpin GPIO_PIN_SET] ∧
      (ADXL375_Set_Output_DataRate h rate w).1 =
        (if (w.transport (w.calls + 3)).data 0 % 256 = rate then ADXL_NO_ERROR
          else ADXL_INV_REG_DATA_READ) ∧
      (ADXL375_Set_Continuous_Measurement h w).2.trace = w.trace ++
        [Event.gpioWrite h.CS_GPIOport h.CS_GPIOpin GPIO_PIN_RESET,
         Event.spiTransmit h.SPIhandler [0x2D] h.SPI_Timeout,
         Event.spiTransmit h.SPIhandler [0x08] h.SPI_Timeout,
         Event.gpioWrite h.CS_GPIOport h.CS_GPIOpin GPIO_PIN_SET,
         Event.gpioWrite h.CS_GPIOport h.CS_GPIOpin GPIO_PIN_RESET,
         Event.spiTransmit h.SPIhandler [0x80 ||| 0x2D] h.SPI_Timeout,
         Event.spiReceive h.SPIhandler 1 h.SPI_Timeout,
         Event.gpioWrite h.CS_GPIOport h.CS_GPIOpin GPIO_PIN_SET] ∧
      (ADXL375_Set_Continuous_Measurement h w).1 =
        (if (w.transport (w.calls + 3)).data 0 % 256 = 0x08 then ADXL_NO_ERROR
          else ADXL_INV_REG_DATA_READ) := by
  have hmod : rate % 256 = rate := Nat.mod_eq_of_lt hrate
  refine ⟨?_, ?_, ?_, ?_⟩
  · simp only [ADXL375_Set_Output_DataRate, singleRegister_Write_eq, singleRegister_Read_eq,
      hok, if_true]
    split_ifs <;> simp [hmod, readCommand, writeCommand, ADXL_BW_RATE, ADXL_Read_Command,
      ADXL_Write_command]
  · simp only [ADXL375_Set_Output_DataRate, singleRegister_Write_eq, singleRegister_Read_eq,
      hok, if_true]
    by_cases hb : (w.transport (w.calls + 3)).data 0 % 256 = rate <;> simp [hb]
  · simp only [ADXL375_Set_Continuous_Measurement, singleRegister_Write_eq,
      singleRegister_Read_eq, hok, if_true]
    split_ifs <;> simp [readCommand, writeCommand, ADXL_POWER_CTL, ADXL_Read_Command,
      ADXL_Write_command, ADXL_MEASUREMODE]
  · simp only [ADXL375_Set_Continuous_Measurement, singleRegister_Write_eq,
      singleRegister_Read_eq, hok, if_true]
    by_cases hb : (w.transport (w.calls + 3)).data 0 % 256 = 0x08 <;>
      simp [hb, ADXL_MEASUREMODE]

/-- Witness of C2: rate 0x0A on a healthy bus that reads 0x0A back. -/
theorem verified_write_on_healthy_bus_witness :
    (ADXL375_Set_Output_DataRate sampleHandler 0x0A (World.init (okTransport [0x0A]))).1 =
        ADXL_NO_ERROR ∧
      (ADXL375_Set_Continuous_Measurement sampleHandler (World.init (okTransport [0x0A]))).1 =
        ADXL_INV_REG_DATA_READ := by
  have key := verified_write_on_healthy_bus sampleHandler 0x0A (World.init (okTransport [0x0A]))
    (by decide) (fun _ => rfl)
  exact ⟨key.2.1.trans (by decide), key.2.2.2.trans (by decide)⟩

/-! ## Identity verification -/

/-- C3: when the read of the identity register 0x00 succeeds and delivers the
byte `b`, `ADXL375_ID_Verify` returns `ADXL_NO_ERROR` if and only if
`b = 0xE5`, and `ADXL_ID_VERIFY_ERROR` for every other byte. -/
theorem id_verify_iff_device_id (h : ADXL375_HW_InitTypeDef) (w : World) (b : Nat)
    (hb : b < 256)
    (hsend : (w.transport w.calls).status = HAL_OK)
    (hrecv : (w.transport (w.calls + 1)).status = HAL_OK)
    (hdata : (w.transport (w.calls + 1)).data 0 = b) :
    (ADXL375_SingleRegister_Read h 0x00 0 w).1 = ADXL_NO_ERROR ∧
      (ADXL375_SingleRegister_Read h 0x00 0 w).2.1 = b ∧
      ((ADXL375_ID_Verify h w).1 = ADXL_NO_ERROR ↔ b = 0xE5) ∧
      (b ≠ 0xE5 → (ADXL375_ID_Verify h w).1 = ADXL_ID_VERIFY_ERROR) := by
  have hmod : b % 256 = b := Nat.mod_eq_of_lt hb
  have hread : ADXL375_SingleRegister_Read h 0x00 0 w =
      (ADXL_NO_ERROR, b, (ADXL375_SingleRegister_Read h 0x00 0 w).2.2) := by
    rw [singleRegister_Read_eq]
    simp [hsend, hrecv, hdata, hmod]
  have hres : (ADXL375_ID_Verify h w).1 =
      if b = 0xE5 then ADXL_NO_ERROR else ADXL_ID_VERIFY_ERROR := by
    unfold ADXL375_ID_Verify
    simp only [ADXL_ANALOG_DEVICES_ID_REG, ADXL_DEVICE_ID]
    rw [hread]
    by_cases hE : b = 0xE5 <;> simp [hE]
  refine ⟨by rw [hread], by rw [hread], ?_, ?_⟩
  · rw [hres]
    by_cases hE : b = 0xE5 <;> simp [hE]
  · intro hE
    rw [hres]
    simp [hE]

/-- Witness of C3: a healthy bus whose identity register reads 0xFF. -/
theorem id_verify_iff_device_id_witness :
    (0xFF : Nat) < 256 ∧
      ((World.init (okTransport [0xFF])).transport 0).status = HAL_OK ∧
      ((World.init (okTransport [0xFF])).transport 1).status = HAL_OK ∧
      ((World.init (okTransport [0xFF])).transport 1).data 0 = 0xFF ∧
      (ADXL375_ID_Verify sampleHandler (World.init (okTransport [0xFF]))).1 =
        ADXL_ID_VERIFY_ERROR :=
  ⟨by decide, rfl, rfl, rfl,
    (id_verify_iff_device_id sampleHandler (World.init (okTransport [0xFF])) 0xFF
      (by decide) rfl rfl rfl).2.2.2 (by decide)⟩

/-- C4, as stated, fails: on a bus where every transfer times out the register
read returns `ADXL_HAL_ERROR`, yet `ADXL375_ID_Verify` returns
`ADXL_ID_VERIFY_ERROR`, not `ADXL_HAL_ERROR`. -/
theorem id_verify_bus_error_counterexample :
    (ADXL375_SingleRegister_Read sampleHandler ADXL_ANALOG_DEVICES_ID_REG 0
        (World.init deadTransport)).1 = ADXL_HAL_ERROR ∧
      (ADXL375_ID_Verify sampleHandler (World.init deadTransport)).1 = ADXL_ID_VERIFY_ERROR ∧
      (ADXL375_ID_Verify sampleHandler (World.init deadTransport)).1 ≠ ADXL_HAL_ERROR := by
  decide

/-- C4, amended: if the register read performed by `ADXL375_ID_Verify` fails at
the transport level (the command send fails, or the 1-byte receive fails), the
read returns `ADXL_HAL_ERROR` and `ADXL375_ID_Verify` returns
`ADXL_ID_VERIFY_ERROR`, the same code as for an identity mismatch; it never
returns `ADXL_NO_ERROR` then, whatever byte is in the destination. -/
theorem id_verify_on_bus_failure (h : ADXL375_HW_InitTypeDef) (w : World)
    (hfail : (w.transport w.calls).status ≠ HAL_OK ∨
      (w.transport (w.calls + 1)).status ≠ HAL_OK) :
    (ADXL375_SingleRegister_Read h ADXL_ANALOG_DEVICES_ID_REG 0 w).1 = ADXL_HAL_ERROR ∧
      (ADXL375_ID_Verify h w).1 = ADXL_ID_VERIFY_ERROR := by
  have hread : (ADXL375_SingleRegister_Read h ADXL_ANALOG_DEVICES_ID_REG 0 w).1 =
      ADXL_HAL_ERROR := by
    rw [singleRegister_Read_eq]
    by_cases h0 : (w.transport w.calls).status = HAL_OK
    · have h1 : (w.transport (w.calls + 1)).status ≠ HAL_OK := by
        rcases hfail with hf | hf
        · exact absurd h0 hf
        · exact hf
      simp [h0, h1]
    · simp [h0]
  refine ⟨hread, ?_⟩
  unfold ADXL375_ID_Verify
  simp [hread]

/-- Witness of C4 amended: a bus whose command send succeeds and whose receive
fails. -/
theorem id_verify_on_bus_failure_witness :
    (((World.init (scriptedTransport [1] [])).transport 0).status ≠ HAL_OK ∨
        ((World.init (scriptedTransport [1] [])).transport 1).status ≠ HAL_OK) ∧
      (ADXL375_ID_Verify sampleHandler (World.init (scriptedTransport [1] []))).1 =
        ADXL_ID_VERIFY_ERROR :=
  ⟨Or.inr (by decide),
    (id_verify_on_bus_failure sampleHandler (World.init (scriptedTransport [1] []))
      (Or.inr (by decide))).2⟩

/-! ## Transport failures during configuration -/

/-- C5, the code at the failing input: with the rate 0x00 (`ADXL_ODR_0_10`) on a
bus where every transfer times out, the register write and the register read
both return `ADXL_HAL_ERROR`, nothing is stored in the read-back byte, and
`ADXL375_Set_Output_DataRate` returns `ADXL_NO_ERROR`. -/
theorem set_output_dataRate_absorbs_bus_failure :
    (ADXL375_SingleRegister_Write sampleHandler ADXL_BW_RATE ADXL_ODR_0_10
        (World.init deadTransport)).1 = ADXL_HAL_ERROR ∧
      (ADXL375_SingleRegister_Read sampleHandler ADXL_BW_RATE 0
        (ADXL375_SingleRegister_Write sampleHandler ADXL_BW_RATE ADXL_ODR_0_10
          (World.init deadTransport)).2).1 = ADXL_HAL_ERROR ∧
      (ADXL375_Set_Output_DataRate sampleHandler ADXL_ODR_0_10
        (World.init deadTransport)).1 = ADXL_NO_ERROR ∧
      (ADXL375_Set_Output_DataRate sampleHandler 0x0A
        (World.init deadTransport)).1 = ADXL_INV_REG_DATA_READ := by
  decide

/-! ## Sample acquisition -/

theorem storeBytes_six (buf : List Nat) (data : Nat → Nat) (hlen : buf.length = 6) :
    storeBytes buf 6 data =
      [data 0 % 256, data 1 % 256, data 2 % 256, data 3 % 256, data 4 % 256, data 5 % 256] := by
  have hdrop : buf.drop 6 = [] := List.drop_eq_nil_of_le (by omega)
  have hrange : List.range 6 = [0, 1, 2, 3, 4, 5] := rfl
  simp [storeBytes, hdrop, hrange]

theorem int16_t_of_lt (n : Nat) (hn : n < 65536) :
    int16_t n = if n < 32768 then (n : Int) else (n : Int) - 65536 := by
  simp [int16_t, Nat.mod_eq_of_lt hn]

/-- C6: after a successful `ADXL375_Data_Read` that received the bytes
`b0, ..., b5`, the buffer holds them in this order and the axis values are
the little-endian signed pairings `DX = int16(b0 + 256 * b1)`,
`DY = int16(b2 + 256 * b3)`, `DZ = int16(b4 + 256 * b5)`, where a 16-bit
pattern `n` stands for `n` below 0x8000 and for `n - 65536` from 0x8000 on. -/
theorem data_Read_little_endian (h : ADXL375_HW_InitTypeDef) (d : ADXL375_Data_TypeDef)
    (w : World) (b0 b1 b2 b3 b4 b5 : Nat)
    (hlen : d.raw_data.length = 6)
    (hsend : (w.transport w.calls).status = HAL_OK)
    (hrecv : (w.transport (w.calls + 1)).status = HAL_OK)
    (hbytes : ∀ i, i < 6 →
      (w.transport (w.calls + 1)).data i = [b0, b1, b2, b3, b4, b5].getD i 0)
    (hrange : ∀ b ∈ [b0, b1, b2, b3, b4, b5], b < 256) :
    (ADXL375_Data_Read h d w).1 = ADXL_NO_ERROR ∧
      (ADXL375_Data_Read h d w).2.1.raw_data = [b0, b1, b2, b3, b4, b5] ∧
      (ADXL375_Data_Read h d w).2.1.DX =
        (if b0 + 256 * b1 < 0x8000 then ((b0 + 256 * b1 : Nat) : Int)
          else ((b0 + 256 * b1 : Nat) : Int) - 65536) ∧
      (ADXL375_Data_Read h d w).2.1.DY =
        (if b2 + 256 * b3 < 0x8000 then ((b2 + 256 * b3 : Nat) : Int)
          else ((b2 + 256 * b3 : Nat) : Int) - 65536) ∧
      (ADXL375_Data_Read h d w).2.1.DZ =
        (if b4 + 256 * b5 < 0x8000 then ((b4 + 256 * b5 : Nat) : Int)
          else ((b4 + 256 * b5 : Nat) : Int) - 65536) := by
  have h0 : b0 < 256 := hrange b0 (by simp)
  have h1 : b1 < 256 := hrange b1 (by simp)
  have h2 : b2 < 256 := hrange b2 (by simp)
  have h3 : b3 < 256 := hrange b3 (by simp)
  have h4 : b4 < 256 := hrange b4 (by simp)
  have h5 : b5 < 256 := hrange b5 (by simp)
  have e0 : (w.transport (w.calls + 1)).data 0 = b0 := hbytes 0 (by decide)
  have e1 : (w.transport (w.calls + 1)).data 1 = b1 := hbytes 1 (by decide)
  have e2 : (w.transport (w.calls + 1)).data 2 = b2 := hbytes 2 (by decide)
  have e3 : (w.transport (w.calls + 1)).data 3 = b3 := hbytes 3 (by decide)
  have e4 : (w.transport (w.calls + 1)).data 4 = b4 := hbytes 4 (by decide)
  have e5 : (w.transport (w.calls + 1)).data 5 = b5 := hbytes 5 (by decide)
  have hbuf : (ADXL375_Data_Read h d w).2.1.raw_data = [b0, b1, b2, b3, b4, b5] := by
    rw [data_Read_eq]
    simp [hsend, hrecv, storeBytes_six _ _ hlen, e0, e1, e2, e3, e4, e5,
      Nat.mod_eq_of_lt h0, Nat.mod_eq_of_lt h1, Nat.mod_eq_of_lt h2, Nat.mod_eq_of_lt h3,
      Nat.mod_eq_of_lt h4, Nat.mod_eq_of_lt h5]
  refine ⟨?_, hbuf, ?_, ?_, ?_⟩
  · rw [data_Read_eq]
    simp [hsend, hrecv]
  · rw [ADXL375_Data_TypeDef.DX, hbuf, load_int16]
    exact int16_t_of_lt _ (by simp; omega)
  · rw [ADXL375_Data_TypeDef.DY, hbuf, load_int16]
    exact int16_t_of_lt _ (by simp; omega)
  · rw [ADXL375_Data_TypeDef.DZ, hbuf, load_int16]
    exact int16_t_of_lt _ (by simp; omega)

/-- Witness of C6: the bytes 0x01, ..., 0x06 give X = 0x0201, Y = 0x0403 and
Z = 0x0605. -/
theorem data_Read_little_endian_witness :
    (ADXL375_Data_Read sampleHandler ⟨[0, 0, 0, 0, 0, 0]⟩
        (World.init (okTransport [0x01, 0x02, 0x03, 0x04, 0x05, 0x06]))).2.1.DX = 0x0201 ∧
      (ADXL375_Data_Read sampleHandler ⟨[0, 0, 0, 0, 0, 0]⟩
        (World.init (okTransport [0x01, 0x02, 0x03, 0x04, 0x05, 0x06]))).2.1.DY = 0x0403 ∧
      (ADXL375_Data_Read sampleHandler ⟨[0, 0, 0, 0, 0, 0]⟩
        (World.init (okTransport [0x01, 0x02, 0x03, 0x04, 0x05, 0x06]))).2.1.DZ = 0x0605 := by
  have key := data_Read_little_endian sampleHandler ⟨[0, 0, 0, 0, 0, 0]⟩
    (World.init (okTransport [0x01, 0x02, 0x03, 0x04, 0x05, 0x06]))
    0x01 0x02 0x03 0x04 0x05 0x06 rfl rfl rfl (fun _ _ => rfl) (by decide)
  exact ⟨key.2.2.1.trans (by decide), key.2.2.2.1.trans (by decide),
    key.2.2.2.2.trans (by decide)⟩

/-! ## The register read and the burst read on an arbitrary transport -/

/-- C7: for every register address byte and every transport behaviour,
`ADXL375_SingleRegister_Read` sends the single byte `0x80 | addr`; if that
send fails it returns `ADXL_HAL_ERROR` without attempting the receive;
otherwise it receives exactly 1 byte and returns `ADXL_HAL_ERROR` if the
receive fails; it returns `ADXL_NO_ERROR` exactly when both transfers
succeed, and then the output byte is the byte received. -/
theorem singleRegister_Read_contract (h : ADXL375_HW_InitTypeDef) (addr pData : Nat)
    (w : World) (haddr : addr < 256) :
    (ADXL375_SingleRegister_Read h addr pData w).2.2.trace = w.trace ++
        (if (w.transport w.calls).status = HAL_OK then
          [Event.gpioWrite h.CS_GPIOport h.CS_GPIOpin GPIO_PIN_RESET,
           Event.spiTransmit h.SPIhandler [0x80 ||| addr] h.SPI_Timeout,
           Event.spiReceive h.SPIhandler 1 h.SPI_Timeout,
           Event.gpioWrite h.CS_GPIOport h.CS_GPIOpin GPIO_PIN_SET]
        else
          [Event.gpioWrite h.CS_GPIOport h.CS_GPIOpin GPIO_PIN_RESET,
           Event.spiTransmit h.SPIhandler [0x80 ||| addr] h.SPI_Timeout,
           Event.gpioWrite h.CS_GPIOport h.CS_GPIOpin GPIO_PIN_SET]) ∧
      (ADXL375_SingleRegister_Read h addr pData w).1 =
        (if (w.transport w.calls).status = HAL_OK ∧
            (w.transport (w.calls + 1)).status = HAL_OK then ADXL_NO_ERROR
          else ADXL_HAL_ERROR) ∧
      ((ADXL375_SingleRegister_Read h addr pData w).1 = ADXL_NO_ERROR →
        (ADXL375_SingleRegister_Read h addr pData w).2.1 =
          (w.transport (w.calls + 1)).data 0 % 256) ∧
      ((w.transport w.calls).status ≠ HAL_OK →
        (ADXL375_SingleRegister_Read h addr pData w).2.1 = pData) := by
  have hcmd : readCommand addr = 0x80 ||| addr := by
    have hlt : 0x80 ||| addr < 2 ^ 8 := Nat.or_lt_two_pow (by decide) (by simpa using haddr)
    simp only [readCommand, ADXL_Read_Command]
    exact Nat.mod_eq_of_lt (by simpa using hlt)
  rw [singleRegister_Read_eq, hcmd]
  by_cases h0 : (w.transport w.calls).status = HAL_OK
  · by_cases h1 : (w.transport (w.calls + 1)).status = HAL_OK
    · simp [h0, h1]
    · simp [h0, h1]
  · simp [h0]

/-- Witness of C7: reading register 0x2C on a healthy bus that answers 0x0A. -/
theorem singleRegister_Read_contract_witness :
    (0x2C : Nat) < 256 ∧
      (ADXL375_SingleRegister_Read sampleHandler 0x2C 0
        (World.init (okTransport [0x0A]))).2.2.trace =
        [Event.gpioWrite 0 4 GPIO_PIN_RESET, Event.spiTransmit 1 [0xAC] 10,
         Event.spiReceive 1 1 10, Event.gpioWrite 0 4 GPIO_PIN_SET] ∧
      (ADXL375_SingleRegister_Read sampleHandler 0x2C 0
        (World.init (okTransport [0x0A]))).1 = ADXL_NO_ERROR := by
  have key := singleRegister_Read_contract sampleHandler 0x2C 0
    (World.init (okTransport [0x0A])) (by decide)
  exact ⟨by decide, key.1.trans (by decide), key.2.1.trans (by decide)⟩

/-- C8: for every transport behaviour, `ADXL375_Data_Read` issues exactly one
send, of the single command byte `0xC0 | 0x32 = 0xF2`, followed by at most one
receive, which asks for all 6 bytes at once and is attempted only if the send
succeeded; it returns `ADXL_HAL_ERROR` if and only if the send or the receive
fails and `ADXL_NO_ERROR` otherwise, and nothing is retried. -/
theorem data_Read_contract (h : ADXL375_HW_InitTypeDef) (d : ADXL375_Data_TypeDef)
    (w : World) :
    (ADXL375_Data_Read h d w).2.2.trace = w.trace ++
        (if (w.transport w.calls).status = HAL_OK then
          [Event.gpioWrite h.CS_GPIOport h.CS_GPIOpin GPIO_PIN_RESET,
           Event.spiTransmit h.SPIhandler [0xF2] h.SPI_Timeout,
           Event.spiReceive h.SPIhandler 6 h.SPI_Timeout,
           Event.gpioWrite h.CS_GPIOport h.CS_GPIOpin GPIO_PIN_SET]
        else
          [Event.gpioWrite h.CS_GPIOport h.CS_GPIOpin GPIO_PIN_RESET,
           Event.spiTransmit h.SPIhandler [0xF2] h.SPI_Timeout,
           Event.gpioWrite h.CS_GPIOport h.CS_GPIOpin GPIO_PIN_SET]) ∧
      (ADXL375_Data_Read h d w).2.2.calls =
        w.calls + (if (w.transport w.calls).status = HAL_OK then 2 else 1) ∧
      readMultipleCommand ADXL_DATA_ADDRESS_INIT = 0xF2 ∧
      ((ADXL375_Data_Read h d w).1 = ADXL_HAL_ERROR ↔
        ((w.transport w.calls).status ≠ HAL_OK ∨
          (w.transport (w.calls + 1)).status ≠ HAL_OK)) ∧
      ((ADXL375_Data_Read h d w).1 = ADXL_NO_ERROR ↔
        ((w.transport w.calls).status = HAL_OK ∧
          (w.transport (w.calls + 1)).status = HAL_OK)) := by
  have hcmd : readMultipleCommand ADXL_DATA_ADDRESS_INIT = 0xF2 := by decide
  rw [data_Read_eq, hcmd]
  by_cases h0 : (w.transport w.calls).status = HAL_OK
  · by_cases h1 : (w.transport (w.calls + 1)).status = HAL_OK
    · simp [h0, h1]
    · simp [h0, h1]
  · simp [h0]

/-! ## Command bytes -/

theorem readCommand_eq (addr : Nat) (haddr : addr ≤ 0x39) : readCommand addr = 0x80 + addr := by
  interval_cases addr <;> rfl

theorem writeCommand_eq (addr : Nat) (haddr : addr ≤ 0x39) : writeCommand addr = addr := by
  interval_cases addr <;> rfl

theorem readMultipleCommand_eq (addr : Nat) (haddr : addr ≤ 0x39) :
    readMultipleCommand addr = 0xC0 + addr := by
  interval_cases addr <;> rfl

/-- C10: for every register address in [0x00, 0x39] the read command
`0x80 | addr` has bit 7 set and bit 6 clear, the write command `0x00 | addr`
has bits 7 and 6 clear, the burst-read command `0xC0 | addr` has bits 7 and
6 set, the low 6 bits of all three equal `addr`, and commands of different
kinds never collide, whatever their addresses. -/
theorem command_byte_encoding (addr other : Nat) (haddr : addr ≤ ADXL_FIFO_STATUS)
    (hother : other ≤ ADXL_FIFO_STATUS) :
    ((readCommand addr).testBit 7 = true ∧ (readCommand addr).testBit 6 = false ∧
        readCommand addr % 64 = addr ∧ readCommand addr < 256) ∧
      ((writeCommand addr).testBit 7 = false ∧ (writeCommand addr).testBit 6 = false ∧
        writeCommand addr % 64 = addr ∧ writeCommand addr < 256) ∧
      ((readMultipleCommand addr).testBit 7 = true ∧
        (readMultipleCommand addr).testBit 6 = true ∧
        readMultipleCommand addr % 64 = addr ∧ readMultipleCommand addr < 256) ∧
      readCommand addr ≠ writeCommand other ∧
      readCommand addr ≠ readMultipleCommand other ∧
      writeCommand addr ≠ readMultipleCommand other := by
  have ha : addr ≤ 0x39 := haddr
  have ho : other ≤ 0x39 := hother
  refine ⟨?_, ?_, ?_, ?_, ?_, ?_⟩
  · clear hother ho
    interval_cases addr <;> decide
  · clear hother ho
    interval_cases addr <;> decide
  · clear hother ho
    interval_cases addr <;> decide
  · rw [readCommand_eq addr ha, writeCommand_eq other ho]; omega
  · rw [readCommand_eq addr ha, readMultipleCommand_eq other ho]; omega
  · rw [writeCommand_eq addr ha, readMultipleCommand_eq other ho]; omega

/-- Witness of C10: the power-control register 0x2D against the sample base 0x32. -/
theorem command_byte_encoding_witness :
    ADXL_POWER_CTL ≤ ADXL_FIFO_STATUS ∧ ADXL_DATA_ADDRESS_INIT ≤ ADXL_FIFO_STATUS ∧
      readCommand ADXL_POWER_CTL = 0xAD ∧ writeCommand ADXL_POWER_CTL = 0x2D ∧
      readMultipleCommand ADXL_DATA_ADDRESS_INIT = 0xF2 ∧
      readCommand ADXL_POWER_CTL ≠ readMultipleCommand ADXL_DATA_ADDRESS_INIT :=
  ⟨by decide, by decide, by decide, by decide, by decide,
    (command_byte_encoding ADXL_POWER_CTL ADXL_DATA_ADDRESS_INIT (by decide)
      (by decide)).2.2.2.2.1⟩

/-! ## Interrupt configuration -/

/-- C9, as stated, fails: on a healthy bus whose interrupt-map register reads
back 0x01 instead of 0x00, `ADXL375_Set_Interrupt_Measurement` returns
`ADXL_INV_REG_DATA_READ`, yet the clearing read was performed and the
caller's buffer, all zeros before, holds the sample 0x01, ..., 0x06. -/
theorem set_interrupt_buffer_counterexample :
    (ADXL375_Set_Interrupt_Measurement sampleHandler ⟨[0, 0, 0, 0, 0, 0]⟩
        (World.init (scriptedTransport []
          [[], [], [], [0x01], [], [], [], [0x80], [], [1, 2, 3, 4, 5, 6]]))).1 =
        ADXL_INV_REG_DATA_READ ∧
      (ADXL375_Set_Interrupt_Measurement sampleHandler ⟨[0, 0, 0, 0, 0, 0]⟩
        (World.init (scriptedTransport []
          [[], [], [], [0x01], [], [], [], [0x80], [], [1, 2, 3, 4, 5, 6]]))).2.1 =
        ⟨[1, 2, 3, 4, 5, 6]⟩ ∧
      (ADXL375_Set_Interrupt_Measurement sampleHandler ⟨[0, 0, 0, 0, 0, 0]⟩
        (World.init (scriptedTransport []
          [[], [], [], [0x01], [], [], [], [0x80], [], [1, 2, 3, 4, 5, 6]]))).2.1 ≠
        ⟨[0, 0, 0, 0, 0, 0]⟩ := by
  decide

/-- C9, amended: on every transport behaviour `ADXL375_Set_Interrupt_Measurement`
starts, in this order, the write to the interrupt-map register 0x2F, its
read-back, the write to the interrupt-enable register 0x2E, its read-back and
then the clearing sample read, which is attempted whether or not the
read-backs match.  When every transfer succeeds it writes 0x00 to 0x2F and 0x80 to 0x2E, returns
`ADXL_NO_ERROR` if both read-backs equal the values written and
`ADXL_INV_REG_DATA_READ` otherwise, and in both cases the caller's buffer
holds the six bytes of the clearing read. -/
theorem set_interrupt_measurement_contract (h : ADXL375_HW_InitTypeDef)
    (d : ADXL375_Data_TypeDef) (w : World) (hlen : d.raw_data.length = 6) :
    commands h (ADXL375_Set_Interrupt_Measurement h d w).2.2.trace =
        commands h w.trace ++ [[0x2F], [0x80 ||| 0x2F], [0x2E], [0x80 ||| 0x2E], [0xF2]] ∧
      ((∀ k, (w.transport k).status = HAL_OK) →
        (ADXL375_Set_Interrupt_Measurement h d w).2.2.trace = w.trace ++
            [Event.gpioWrite h.CS_GPIOport h.CS_GPIOpin GPIO_PIN_RESET,
             Event.spiTransmit h.SPIhandler [0x2F] h.SPI_Timeout,
             Event.spiTransmit h.SPIhandler [0x00] h.SPI_Timeout,
             Event.gpioWrite h.CS_GPIOport h.CS_GPIOpin GPIO_PIN_SET,
             Event.gpioWrite h.CS_GPIOport h.CS_GPIOpin GPIO_PIN_RESET,
             Event.spiTransmit h.SPIhandler [0x80 ||| 0x2F] h.SPI_Timeout,
             Event.spiReceive h.SPIhandler 1 h.SPI_Timeout,
             Event.gpioWrite h.CS_GPIOport h.CS_GPIOpin GPIO_PIN_SET,
             Event.gpioWrite h.CS_GPIOport h.CS_GPIOpin GPIO_PIN_RESET,
             Event.spiTransmit h.SPIhandler [0x2E] h.SPI_Timeout,
             Event.spiTransmit h.SPIhandler [0x80] h.SPI_Timeout,
             Event.gpioWrite h.CS_GPIOport h.CS_GPIOpin GPIO_PIN_SET,
             Event.gpioWrite h.CS_GPIOport h.CS_GPIOpin GPIO_PIN_RESET,
             Event.spiTransmit h.SPIhandler [0x80 ||| 0x2E] h.SPI_Timeout,
             Event.spiReceive h.SPIhandler 1 h.SPI_Timeout,
             Event.gpioWrite h.CS_GPIOport h.CS_GPIOpin GPIO_PIN_SET,
             Event.gpioWrite h.CS_GPIOport h.CS_GPIOpin GPIO_PIN_RESET,
             Event.spiTransmit h.SPIhandler [0xF2] h.SPI_Timeout,
             Event.spiReceive h.SPIhandler 6 h.SPI_Timeout,
             Event.gpioWrite h.CS_GPIOport h.CS_GPIOpin GPIO_PIN_SET] ∧
          (ADXL375_Set_Interrupt_Measurement h d w).2.1.raw_data =
            [(w.transport (w.calls + 9)).data 0 % 256, (w.transport (w.calls + 9)).data 1 % 256,
             (w.transport (w.calls + 9)).data 2 % 256, (w.transport (w.calls + 9)).data 3 % 256,
             (w.transport (w.calls + 9)).data 4 % 256,
             (w.transport (w.calls + 9)).data 5 % 256] ∧
          (ADXL375_Set_Interrupt_Measurement h d w).1 =
            (if (w.transport (w.calls + 3)).data 0 % 256 = 0x00 ∧
                (w.transport (w.calls + 7)).data 0 % 256 = 0x80 then ADXL_NO_ERROR
              else ADXL_INV_REG_DATA_READ)) := by
  refine ⟨?_, ?_⟩
  · simp only [ADXL375_Set_Interrupt_Measurement]
    split_ifs <;>
      simp [commands_Data_Read, commands_Read, commands_Write] <;> decide
  · intro hok
    simp only [ADXL375_Set_Interrupt_Measurement, singleRegister_Write_eq,
      singleRegister_Read_eq, data_Read_eq, hok, if_true]
    refine ⟨?_, ?_, ?_⟩
    · split_ifs <;> simp [readCommand, writeCommand, readMultipleCommand, ADXL_INT_MAP,
        ADXL_INT_ENABLE, ADXL_INT1_DATA_READY, ADXL_INT_DATA_READY, ADXL_Read_Command,
        ADXL_Write_command, ADXL_Read_Multiple_Command, ADXL_DATA_ADDRESS_INIT]
    · split_ifs <;> simp [storeBytes_six _ _ hlen]
    · by_cases h1 : (w.transport (w.calls + 3)).data 0 % 256 = 0x00 <;>
        by_cases h2 : (w.transport (w.calls + 7)).data 0 % 256 = 0x80 <;>
        simp [h1, h2, ADXL_INT1_DATA_READY, ADXL_INT_DATA_READY]

/-- Witness of C9 amended: a healthy bus whose interrupt-map register reads
back 0x01. -/
theorem set_interrupt_measurement_contract_witness :
    (⟨[0, 0, 0, 0, 0, 0]⟩ : ADXL375_Data_TypeDef).raw_data.length = 6 ∧
      (∀ k, ((World.init (scriptedTransport []
        [[], [], [], [0x01], [], [], [], [0x80], [], [1, 2, 3, 4, 5, 6]])).transport k).status =
          HAL_OK) ∧
      (ADXL375_Set_Interrupt_Measurement sampleHandler ⟨[0, 0, 0, 0, 0, 0]⟩
        (World.init (scriptedTransport []
          [[], [], [], [0x01], [], [], [], [0x80], [], [1, 2, 3, 4, 5, 6]]))).2.1.raw_data =
        [1, 2, 3, 4, 5, 6] ∧
      (ADXL375_Set_Interrupt_Measurement sampleHandler ⟨[0, 0, 0, 0, 0, 0]⟩
        (World.init (scriptedTransport []
          [[], [], [], [0x01], [], [], [], [0x80], [], [1, 2, 3, 4, 5, 6]]))).1 =
        ADXL_INV_REG_DATA_READ := by
  have hok : ∀ k, ((World.init (scriptedTransport []
      [[], [], [], [0x01], [], [], [], [0x80], [], [1, 2, 3, 4, 5, 6]])).transport k).status =
        HAL_OK := fun _ => rfl
  have key := (set_interrupt_measurement_contract sampleHandler ⟨[0, 0, 0, 0, 0, 0]⟩
    (World.init (scriptedTransport []
      [[], [], [], [0x01], [], [], [], [0x80], [], [1, 2, 3, 4, 5, 6]])) rfl).2 hok
  exact ⟨rfl, hok, key.2.1.trans (by decide), key.2.2.trans (by decide)⟩

end ADXL375
